import Mathlib

/-!
Shallow embedding of the CtrlXTEngine world-state engine
(Engine/RealityMatrix.js and Engine/QuantumCore.js) and proofs of the
specification's claims about it.

JavaScript objects are modelled as association lists of string keys to a
small value type `Val`; JS truthiness is modelled by `truthy`; mutation is
modelled by explicit state passing.  Console logging is a pure side effect
with no influence on state and is dropped.
-/

namespace CtrlXT

/-- A JavaScript value as used by the engine: strings, numbers, booleans.
Numbers are modelled as integers where used for ids and property values. -/
inductive Val where
  | str (s : String)
  | num (n : Int)
  | bool (b : Bool)
deriving DecidableEq, Repr

/-- JS truthiness of a `Val`: empty string, zero and false are falsy. -/
def truthy : Val → Bool
  | .str s => s ≠ ""
  | .num n => n ≠ 0
  | .bool b => b

/-- JS truthiness of a possibly-missing value (`undefined` is falsy). -/
def truthyOpt : Option Val → Bool
  | none => false
  | some v => truthy v

/-- A JS object: an association list from property names to values.  JS
objects have unique keys; lists built by `setProp` preserve that. -/
def Obj : Type := List (String × Val)

instance : DecidableEq Obj := inferInstanceAs (DecidableEq (List (String × Val)))

instance : Repr Obj := inferInstanceAs (Repr (List (String × Val)))

/-- Property lookup (`o[k]`): first matching key, `none` for `undefined`. -/
def getProp (o : Obj) (k : String) : Option Val :=
  (o.find? (fun p => p.1 == k)).map Prod.snd

/-- Property write (`o[k] = v`): overwrite the first matching key in place,
append when the key is absent — exactly JS assignment on unique-key objects. -/
def setProp : Obj → String → Val → Obj
  | [], k, v => [(k, v)]
  | (k', v') :: rest, k, v =>
      if k' == k then (k, v) :: rest else (k', v') :: setProp rest k v

/-- `Object.assign(target, source)`: write every key of `source` into
`target`, in order. -/
def objectAssign (target source : Obj) : Obj :=
  source.foldl (fun t kv => setProp t kv.1 kv.2) target

/-- The entity's `id` property (`obj.id`). -/
def objId (o : Obj) : Option Val := getProp o "id"

/-- A 3-dimensional extent or coordinate (`{ x, y, z }`). -/
structure Coords where
  x : Int
  y : Int
  z : Int
deriving DecidableEq, Repr

/-- The world's fixed reference frame (`zeroPoint`). -/
structure ZeroPoint where
  frequency : Int
  coordinates : Coords
deriving DecidableEq, Repr

/-- A teleportation marker created by the `createBlinkSpot` change. -/
structure BlinkSpot where
  id : String
  coordinates : Coords
  time : String
deriving DecidableEq, Repr

/-- The game world of Engine/RealityMatrix.js.  `blinkSpots` starts as the
empty list, standing for the initially absent JS property (both read as
length 0 by `createBlinkSpot`). -/
structure World where
  dimensions : Coords
  ocularComposition : String
  processingModel : String
  objects : List Obj
  timeState : String
  timeSpeedMultiplier : Rat
  dataSources : List String
  zeroPoint : ZeroPoint
  blinkSpots : List BlinkSpot
deriving DecidableEq, Repr

/-- `createWorld(dimensions, ocularComposition, processingModel, dataSources)`:
a fresh world with no objects, `timeState = "PLAY"` and multiplier 1. -/
def createWorld (dimensions : Coords) (ocularComposition processingModel : String)
    (dataSources : List String) : World :=
  { dimensions := dimensions
    ocularComposition := ocularComposition
    processingModel := processingModel
    objects := []
    timeState := "PLAY"
    timeSpeedMultiplier := 1
    dataSources := dataSources
    zeroPoint := { frequency := 0, coordinates := { x := 0, y := 0, z := 0 } }
    blinkSpots := [] }

/-- A change record consumed by `alterReality`.  `Option` fields stand for
possibly-missing JS properties; `other` is any unknown `change.type`. -/
inductive Change where
  | add (object : Option Obj)
  | remove (targetId : Option Val)
  | modify (targetId : Option Val) (properties : Option Obj)
  | createBlinkSpot (coordinates : Option Coords)
  | other (ty : String)
deriving DecidableEq, Repr

/-- The in-place mutation of the first object whose id matches, performed by
the `modify` case (`find` then `Object.assign`); later matches untouched. -/
def modifyFirst : List Obj → Option Val → Obj → List Obj
  | [], _, _ => []
  | o :: rest, tid, p =>
      if objId o == tid then objectAssign o p :: rest
      else o :: modifyFirst rest tid p

/-- One iteration of the `alterReality` loop: apply a single change record. -/
def applyChange (w : World) (c : Change) : World :=
  match c with
  | .add none => w
  | .add (some o) =>
      if truthyOpt (objId o) then
        if (w.objects.find? (fun ob => objId ob == objId o)).isSome then w
        else { w with objects := w.objects ++ [o] }
      else w
  | .remove tid =>
      if truthyOpt tid then
        { w with objects := w.objects.filter (fun ob => !(objId ob == tid)) }
      else w
  | .modify _ none => w
  | .modify tid (some p) =>
      if truthyOpt tid then { w with objects := modifyFirst w.objects tid p }
      else w
  | .createBlinkSpot none => w
  | .createBlinkSpot (some c) =>
      { w with blinkSpots := w.blinkSpots ++
          [{ id := "blinkSpot-" ++ toString w.blinkSpots.length
             coordinates := c
             time := w.timeState }] }
  | .other _ => w

/-- `alterReality(targetWorld, changes)`: apply the changes in order. -/
def alterReality (w : World) (changes : List Change) : World :=
  changes.foldl applyChange w

/-- The five labels accepted by `controlTime`. -/
def validTimeStates : List String :=
  ["PLAY", "PAUSE", "STOP", "FAST FORWARD", "REWIND"]

/-- `controlTime(world, state, speed = 1)`: on a valid label, set the state
and set the multiplier to `speed` for FAST FORWARD / REWIND and to 1
otherwise; then the switch reverts a non-positive-speed FAST FORWARD or
REWIND to PLAY with multiplier 1.  On an invalid label, `timeState` is
written back to `previousState` (captured at entry, hence unchanged) and the
multiplier is set to 1. -/
def controlTime (w : World) (state : String) (speed : Rat) : World :=
  if validTimeStates.contains state then
    let w1 : World :=
      { w with timeState := state
               timeSpeedMultiplier :=
                 if state == "FAST FORWARD" || state == "REWIND" then speed else 1 }
    if (state == "FAST FORWARD" || state == "REWIND") && decide (speed ≤ 0) then
      { w1 with timeState := "PLAY", timeSpeedMultiplier := 1 }
    else w1
  else
    { w with timeSpeedMultiplier := 1 }

/-- `loadWorld(savedState)`: `JSON.parse` is a platform builtin outside the
repository, abstracted as the `parse` argument (its outcome on the given
string); the `try`/`catch` of the source becomes the `match`.  On parse
failure the fixed default world is returned. -/
def loadWorld (parse : String → Option World) (savedState : String) : World :=
  match parse savedState with
  | some w => w
  | none => createWorld { x := 10, y := 10, z := 10 } "default" "default" []

/-- A game object of Engine/QuantumCore.js.  Fields beyond `id` start as
`none` / `false`, standing for initially absent JS properties. -/
structure QObj where
  id : String
  isEntangled : Bool
  entangledWith : Option String
  states : Option (List Val)
  currentStateIndex : Option Int
  currentState : Option Val
deriving DecidableEq, Repr

/-- JS array indexing with a possibly negative or too-large index:
`undefined` is `none`. -/
def listGetInt (l : List Val) (i : Int) : Option Val :=
  if i < 0 then none else l.get? i.toNat

/-- `createEntanglement(objects)`: requires at least two objects, otherwise a
no-op; sets every object's `isEntangled` and stores on each the joined id
string of all participants. -/
def createEntanglement (objects : List QObj) : List QObj :=
  if objects.length < 2 then objects
  else
    objects.map (fun o =>
      { o with isEntangled := true
               entangledWith :=
                 some (String.intercalate ", " (objects.map QObj.id)) })

/-- `applySuperposition(object, states, initialStateIndex = 0)`: requires at
least two states, otherwise a no-op; stores the states and the index with no
bounds check, and derives `currentState = states[initialStateIndex]`. -/
def applySuperposition (o : QObj) (states : List Val) (initialStateIndex : Int) : QObj :=
  if states.length < 2 then o
  else
    { o with states := some states
             currentStateIndex := some initialStateIndex
             currentState := listGetInt states initialStateIndex }

/-- `changeCurrentState(object, newStateIndex)`: requires an existing (truthy)
`states` array and `0 ≤ newStateIndex < states.length`, otherwise a no-op. -/
def changeCurrentState (o : QObj) (newStateIndex : Int) : QObj :=
  match o.states with
  | some l =>
      if 0 ≤ newStateIndex ∧ newStateIndex < (l.length : Int) then
        { o with currentStateIndex := some newStateIndex
                 currentState := listGetInt l newStateIndex }
      else o
  | none => o

/-- Whether a change record is an Add or a Remove (the sub-protocol the
uniqueness claim quantifies over). -/
def isAddRemove : Change → Bool
  | .add _ => true
  | .remove _ => true
  | _ => false

/-- One multi-state operation on a QuantumCore object: a superposition
assignment or a current-state change. -/
inductive QOp where
  | super (states : List Val) (i : Int)
  | change (i : Int)
deriving DecidableEq, Repr

/-- Apply one multi-state operation. -/
def applyQOp (o : QObj) : QOp → QObj
  | .super s i => applySuperposition o s i
  | .change i => changeCurrentState o i

/-- Apply a sequence of multi-state operations in order. -/
def applyQOps (o : QObj) (ops : List QOp) : QObj :=
  ops.foldl applyQOp o

/-- The state-slot invariant: if the object has a states array, its current
index exists and lies within bounds. -/
def slotOk (o : QObj) : Bool :=
  match o.states, o.currentStateIndex with
  | none, _ => true
  | some l, some i => decide (0 ≤ i ∧ i < (l.length : Int))
  | some _, none => false

/-- A superposition operation whose initial index is within the bounds of
its own states list (the caller obligation of §4.5). -/
def opOk : QOp → Bool
  | .super s i => decide (0 ≤ i ∧ i < (s.length : Int))
  | .change _ => true

/-- A JS number as passed for the `speed` argument: NaN or a rational
value.  Infinities do not arise in the claims and are not modelled. -/
inductive JNum where
  | nan
  | val (q : Rat)
deriving DecidableEq, Repr

/-- The JS comparison `speed <= 0`: false when the speed is NaN. -/
def JNum.leZero : JNum → Bool
  | .nan => false
  | .val q => decide (q ≤ 0)

/-- The JS comparison `speed > 0`: false when the speed is NaN. -/
def JNum.pos : JNum → Bool
  | .nan => false
  | .val q => decide (0 < q)

/-- The two world fields `controlTime` reads and writes (`previousState`
is read from `timeState`; only `timeState` and `timeSpeedMultiplier` are
assigned), with the multiplier carried as a full JS number so that a NaN
speed argument and its stored result are representable. -/
structure TimeCtl where
  timeState : String
  timeSpeedMultiplier : JNum
deriving DecidableEq, Repr

/-- `controlTime(world, state, speed)` again, on the NaN-aware speed
domain: the same write-then-revert structure as `controlTime`, restricted
to the two fields the source mutates.  The revert guard is the source's
`speed <= 0`, which a NaN speed fails, so a NaN multiplier assigned for
FAST FORWARD or REWIND is kept. -/
def controlTimeN (w : TimeCtl) (state : String) (speed : JNum) : TimeCtl :=
  if validTimeStates.contains state then
    let w1 : TimeCtl :=
      { timeState := state
        timeSpeedMultiplier :=
          if state == "FAST FORWARD" || state == "REWIND" then speed else .val 1 }
    if (state == "FAST FORWARD" || state == "REWIND") && JNum.leZero speed then
      { timeState := "PLAY", timeSpeedMultiplier := .val 1 }
    else w1
  else
    { w with timeSpeedMultiplier := .val 1 }

end CtrlXT

namespace CtrlXT

/-! ### Time controller (claims C1, C7, C10) -/

/-- Claim C1, as stated, is false: after `controlTime w "FAST FORWARD" 2`
the world has `timeSpeedMultiplier = 2`, and a subsequent call with the
invalid label `"UNKNOWN"` resets the multiplier to 1 instead of leaving it
at its pre-call value, so the rollback is not full. -/
theorem claim1_counterexample :
    (controlTime (controlTime (createWorld ⟨100, 100, 100⟩ "c" "p" [])
        "FAST FORWARD" 2) "UNKNOWN" 1).timeSpeedMultiplier ≠
      (controlTime (createWorld ⟨100, 100, 100⟩ "c" "p" [])
        "FAST FORWARD" 2).timeSpeedMultiplier := by
  decide

/-- Claim C1 (amended): for every world and every invalid time-state label,
`controlTime` leaves `timeState` at its pre-call value but resets
`timeSpeedMultiplier` to 1 (so the pre-call multiplier is preserved only
when it was already 1). -/
theorem claim1_invalid_label_keeps_state_resets_speed
    (w : World) (st : String) (sp : Rat)
    (h : validTimeStates.contains st = false) :
    (controlTime w st sp).timeState = w.timeState ∧
      (controlTime w st sp).timeSpeedMultiplier = 1 := by
  have h' : st ∉ validTimeStates := by simpa using h
  simp [controlTime, h']

/-- Witness for the amended claim C1 at the spec's own example input. -/
theorem claim1_witness :
    (controlTime (createWorld ⟨100, 100, 100⟩ "c" "p" []) "UNKNOWN" 1).timeState =
        (createWorld ⟨100, 100, 100⟩ "c" "p" []).timeState ∧
      (controlTime (createWorld ⟨100, 100, 100⟩ "c" "p" []) "UNKNOWN" 1).timeSpeedMultiplier = 1 :=
  claim1_invalid_label_keeps_state_resets_speed
    (createWorld ⟨100, 100, 100⟩ "c" "p" []) "UNKNOWN" 1 (by decide)

/-- Claim C7: for FAST FORWARD or REWIND, a non-positive speed forces the
canonical fallback `timeState = "PLAY"` with multiplier 1, while a positive
speed sets the requested state with the given multiplier. -/
theorem claim7_fastforward_rewind_speed
    (w : World) (st : String) (sp : Rat)
    (hst : st = "FAST FORWARD" ∨ st = "REWIND") :
    (sp ≤ 0 →
      (controlTime w st sp).timeState = "PLAY" ∧
        (controlTime w st sp).timeSpeedMultiplier = 1) ∧
      (0 < sp →
        (controlTime w st sp).timeState = st ∧
          (controlTime w st sp).timeSpeedMultiplier = sp) := by
  constructor
  · intro hsp
    rcases hst with h | h <;> subst h <;> simp [controlTime, validTimeStates, hsp]
  · intro hsp
    have hsp' : ¬ sp ≤ 0 := not_le.mpr hsp
    rcases hst with h | h <;> subst h <;> simp [controlTime, validTimeStates, hsp']

/-- Witness for claim C7 at the spec's example `("FAST FORWARD", -1)` and at
a positive speed. -/
theorem claim7_witness :
    ((controlTime (createWorld ⟨10, 10, 10⟩ "c" "p" []) "FAST FORWARD" (-1)).timeState = "PLAY" ∧
      (controlTime (createWorld ⟨10, 10, 10⟩ "c" "p" []) "FAST FORWARD" (-1)).timeSpeedMultiplier = 1) ∧
      ((controlTime (createWorld ⟨10, 10, 10⟩ "c" "p" []) "REWIND" 2).timeState = "REWIND" ∧
        (controlTime (createWorld ⟨10, 10, 10⟩ "c" "p" []) "REWIND" 2).timeSpeedMultiplier = 2) :=
  ⟨(claim7_fastforward_rewind_speed (createWorld ⟨10, 10, 10⟩ "c" "p" []) "FAST FORWARD" (-1)
      (Or.inl rfl)).1 (by norm_num),
    (claim7_fastforward_rewind_speed (createWorld ⟨10, 10, 10⟩ "c" "p" []) "REWIND" 2
      (Or.inr rfl)).2 (by norm_num)⟩

/-- Claim C10, as stated, is false: a NaN speed under FAST FORWARD is
assigned to the multiplier, the revert guard `speed <= 0` is false at NaN,
and the call ends with `timeSpeedMultiplier = NaN`, which is not strictly
positive (and is neither the caller's positive speed nor 1). -/
theorem claim10_counterexample :
    (controlTimeN ⟨"PLAY", .val 1⟩ "FAST FORWARD" .nan).timeSpeedMultiplier = .nan ∧
      JNum.pos (controlTimeN ⟨"PLAY", .val 1⟩ "FAST FORWARD" .nan).timeSpeedMultiplier =
        false := by
  decide

/-- Claim C10 (amended): after any `controlTime` call with a non-NaN speed
the multiplier is strictly positive — every branch leaves it at 1 or at the
caller's speed when that speed is positive; a NaN speed requested with
FAST FORWARD or REWIND instead leaves the multiplier NaN. -/
theorem claim10_speed_positive_unless_nan (w : TimeCtl) (st : String) (sp : JNum)
    (h : sp ≠ .nan) :
    JNum.pos (controlTimeN w st sp).timeSpeedMultiplier = true ∧
      ((controlTimeN w st sp).timeSpeedMultiplier = .val 1 ∨
        (JNum.pos sp = true ∧ (controlTimeN w st sp).timeSpeedMultiplier = sp)) := by
  obtain ⟨q, rfl⟩ : ∃ q, sp = .val q := by
    cases sp with
    | nan => exact absurd rfl h
    | val q => exact ⟨q, rfl⟩
  unfold controlTimeN
  by_cases hv : st ∈ validTimeStates
  · by_cases hf : st = "FAST FORWARD" ∨ st = "REWIND"
    · by_cases hq : q ≤ 0
      · simp [hv, hf, JNum.leZero, hq, JNum.pos]
      · have hq' : 0 < q := lt_of_not_le hq
        simp [hv, hf, JNum.leZero, hq, JNum.pos, hq']
    · simp [hv, hf, JNum.pos]
  · simp [hv, JNum.pos]

/-- Witness for the amended claim C10 at a positive concrete speed. -/
theorem claim10_witness :
    JNum.pos (controlTimeN ⟨"PLAY", .val 1⟩ "FAST FORWARD"
        (.val 2)).timeSpeedMultiplier = true ∧
      ((controlTimeN ⟨"PLAY", .val 1⟩ "FAST FORWARD" (.val 2)).timeSpeedMultiplier =
          .val 1 ∨
        (JNum.pos (.val 2) = true ∧
          (controlTimeN ⟨"PLAY", .val 1⟩ "FAST FORWARD" (.val 2)).timeSpeedMultiplier =
            .val 2)) :=
  claim10_speed_positive_unless_nan ⟨"PLAY", .val 1⟩ "FAST FORWARD" (.val 2) (by decide)

/-! ### Snapshot codec (claim C8) -/

/-- Claim C8: `loadWorld` is total — when the snapshot decodes, the decoded
world is returned unchanged; on any decode failure it returns the fixed
default world `createWorld {x:10, y:10, z:10} "default" "default" []`, which
has an empty object list and `timeState = "PLAY"`. -/
theorem claim8_load_world_fallback (parse : String → Option World) (s : String) :
    (∀ w, parse s = some w → loadWorld parse s = w) ∧
      (parse s = none →
        loadWorld parse s = createWorld ⟨10, 10, 10⟩ "default" "default" [] ∧
          (loadWorld parse s).objects = [] ∧
          (loadWorld parse s).timeState = "PLAY") := by
  unfold loadWorld
  cases hp : parse s with
  | some w => simp
  | none => simp [createWorld]

/-- Witness for claim C8: a failing decode yields the default world, a
succeeding decode returns the decoded world. -/
theorem claim8_witness :
    (loadWorld (fun _ => none) "not valid data" =
        createWorld ⟨10, 10, 10⟩ "default" "default" [] ∧
      (loadWorld (fun _ => none) "not valid data").objects = [] ∧
      (loadWorld (fun _ => none) "not valid data").timeState = "PLAY") ∧
      loadWorld (fun _ => some (createWorld ⟨1, 2, 3⟩ "a" "b" [])) "x" =
        createWorld ⟨1, 2, 3⟩ "a" "b" [] :=
  ⟨(claim8_load_world_fallback (fun _ => none) "not valid data").2 rfl,
    (claim8_load_world_fallback (fun _ => some (createWorld ⟨1, 2, 3⟩ "a" "b" [])) "x").1
      (createWorld ⟨1, 2, 3⟩ "a" "b" []) rfl⟩

/-! ### Change protocol (claims C3, C4, C5) -/

/-- A single Add or Remove change preserves distinctness of object ids. -/
theorem nodup_ids_applyChange (w : World) (c : Change)
    (hc : isAddRemove c = true)
    (h : (w.objects.map objId).Nodup) :
    (((applyChange w c).objects).map objId).Nodup := by
  cases c with
  | add obj =>
      cases obj with
      | none => simpa [applyChange] using h
      | some o =>
          by_cases ht : truthyOpt (objId o) = true
          · by_cases hf : (w.objects.find? (fun ob => objId ob == objId o)).isSome = true
            · simpa [applyChange, ht, hf] using h
            · have hnone : w.objects.find? (fun ob => objId ob == objId o) = none :=
                Option.not_isSome_iff_eq_none.mp hf
              have hnotin : objId o ∉ w.objects.map objId := by
                intro hmem
                obtain ⟨ob, hob, hid⟩ := List.mem_map.mp hmem
                exact absurd (by simpa using hid) (by simpa using List.find?_eq_none.mp hnone ob hob)
              simp only [applyChange, ht, if_true, hf, if_false, List.map_append]
              simp [List.nodup_append, h, hnotin]
          · simpa [applyChange, ht] using h
  | remove tid =>
      by_cases ht : truthyOpt tid = true
      · have hsub : (((w.objects.filter (fun ob => !(objId ob == tid))).map objId)).Sublist
            (w.objects.map objId) := (List.filter_sublist w.objects).map objId
        simpa [applyChange, ht] using hsub.nodup h
      · simpa [applyChange, ht] using h
  | modify tid props => simp [isAddRemove] at hc
  | createBlinkSpot coords => simp [isAddRemove] at hc
  | other ty => simp [isAddRemove] at hc

/-- Any sequence of Add and Remove changes preserves distinctness of ids. -/
theorem nodup_ids_alterReality (w : World) (changes : List Change)
    (hc : ∀ c ∈ changes, isAddRemove c = true)
    (h : (w.objects.map objId).Nodup) :
    (((alterReality w changes).objects).map objId).Nodup := by
  induction changes generalizing w with
  | nil => simpa [alterReality] using h
  | cons c cs ih =>
      have h1 := nodup_ids_applyChange w c (hc c (List.mem_cons_self _ _)) h
      have h2 : ∀ x ∈ cs, isAddRemove x = true :=
        fun x hx => hc x (List.mem_cons_of_mem _ hx)
      simpa [alterReality] using ih (applyChange w c) h2 h1

/-- Claim C3: starting from any `createWorld` world, after any sequence of
Add and Remove changes no two objects share an id. -/
theorem claim3_unique_ids (dims : Coords) (oc pm : String) (ds : List String)
    (changes : List Change) (hc : ∀ c ∈ changes, isAddRemove c = true) :
    (((alterReality (createWorld dims oc pm ds) changes).objects).map objId).Nodup :=
  nodup_ids_alterReality (createWorld dims oc pm ds) changes hc (by simp [createWorld])

/-- Witness for claim C3: two adds of the same id and a remove leave the id
list duplicate-free. -/
theorem claim3_witness :
    (((alterReality (createWorld ⟨10, 10, 10⟩ "c" "p" [])
        [.add (some [("id", .str "a")]), .add (some [("id", .str "a")]),
         .add (some [("id", .str "b")]), .remove (some (.str "a"))]).objects).map objId).Nodup :=
  claim3_unique_ids ⟨10, 10, 10⟩ "c" "p" []
    [.add (some [("id", .str "a")]), .add (some [("id", .str "a")]),
     .add (some [("id", .str "b")]), .remove (some (.str "a"))]
    (by decide)

/-- Claim C4: adding an object whose id matches an existing object leaves
the world (hence the existing object and all its properties) entirely
unchanged and inserts nothing; adding an object with a truthy (non-empty)
id matched by no existing object appends it unmodified. -/
theorem claim4_add_duplicate_skipped (w : World) (o : Obj) :
    ((∃ ob ∈ w.objects, objId ob = objId o) → applyChange w (.add (some o)) = w) ∧
      (truthyOpt (objId o) = true →
        (∀ ob ∈ w.objects, objId ob ≠ objId o) →
        applyChange w (.add (some o)) = { w with objects := w.objects ++ [o] }) := by
  constructor
  · rintro ⟨ob, hob, hid⟩
    by_cases ht : truthyOpt (objId o) = true
    · have hf : (w.objects.find? (fun x => objId x == objId o)).isSome :=
        List.find?_isSome.mpr ⟨ob, hob, by simpa using hid⟩
      simp [applyChange, ht, hf]
    · simp [applyChange, ht]
  · intro ht hfresh
    have hnone : w.objects.find? (fun x => objId x == objId o) = none :=
      List.find?_eq_none.mpr (fun x hx => by simpa using hfresh x hx)
    simp [applyChange, ht, hnone]

/-- Witness for claim C4: a duplicate add of id `a` is skipped, and a fresh
add of id `b` is appended unmodified. -/
theorem claim4_witness :
    applyChange (alterReality (createWorld ⟨10, 10, 10⟩ "c" "p" [])
        [.add (some [("id", .str "a"), ("hp", .num 7)])])
      (.add (some [("id", .str "a")])) =
      alterReality (createWorld ⟨10, 10, 10⟩ "c" "p" [])
        [.add (some [("id", .str "a"), ("hp", .num 7)])] ∧
    applyChange (createWorld ⟨10, 10, 10⟩ "c" "p" []) (.add (some [("id", .str "b")])) =
      { createWorld ⟨10, 10, 10⟩ "c" "p" [] with objects := [[("id", .str "b")]] } :=
  ⟨(claim4_add_duplicate_skipped
      (alterReality (createWorld ⟨10, 10, 10⟩ "c" "p" [])
        [.add (some [("id", .str "a"), ("hp", .num 7)])])
      [("id", .str "a")]).1
      ⟨[("id", .str "a"), ("hp", .num 7)], by decide, by decide⟩,
    (claim4_add_duplicate_skipped (createWorld ⟨10, 10, 10⟩ "c" "p" [])
      [("id", .str "b")]).2 (by decide) (by decide)⟩

/-- Claim C5: removing an id matched by no object leaves the object list
unchanged, and removing the same id twice equals removing it once. -/
theorem claim5_remove_idempotent (w : World) (tid : Option Val) :
    ((∀ ob ∈ w.objects, objId ob ≠ tid) →
        (applyChange w (.remove tid)).objects = w.objects) ∧
      applyChange (applyChange w (.remove tid)) (.remove tid) =
        applyChange w (.remove tid) := by
  constructor
  · intro hno
    by_cases ht : truthyOpt tid = true
    · have : w.objects.filter (fun ob => !(objId ob == tid)) = w.objects :=
        List.filter_eq_self.mpr (fun ob hob => by simpa using hno ob hob)
      simp [applyChange, ht, this]
    · simp [applyChange, ht]
  · by_cases ht : truthyOpt tid = true
    · simp only [applyChange, ht, if_true]
      congr 1
      rw [List.filter_filter]
      simp
    · simp [applyChange, ht]

/-- Witness for claim C5: removing the absent id `z` changes nothing, and a
double removal of `a` equals a single one. -/
theorem claim5_witness :
    ((applyChange (alterReality (createWorld ⟨10, 10, 10⟩ "c" "p" [])
          [.add (some [("id", .str "a")])]) (.remove (some (.str "z")))).objects =
        (alterReality (createWorld ⟨10, 10, 10⟩ "c" "p" [])
          [.add (some [("id", .str "a")])]).objects) ∧
      applyChange (applyChange (alterReality (createWorld ⟨10, 10, 10⟩ "c" "p" [])
            [.add (some [("id", .str "a")])]) (.remove (some (.str "a"))))
          (.remove (some (.str "a"))) =
        applyChange (alterReality (createWorld ⟨10, 10, 10⟩ "c" "p" [])
            [.add (some [("id", .str "a")])]) (.remove (some (.str "a"))) :=
  ⟨(claim5_remove_idempotent (alterReality (createWorld ⟨10, 10, 10⟩ "c" "p" [])
        [.add (some [("id", .str "a")])]) (some (.str "z"))).1 (by decide),
    (claim5_remove_idempotent (alterReality (createWorld ⟨10, 10, 10⟩ "c" "p" [])
        [.add (some [("id", .str "a")])]) (some (.str "a"))).2⟩

/-! ### Shallow merge (claim C6) -/

/-- Property lookup on a cons cell. -/
theorem getProp_cons (k₀ : String) (v₀ : Val) (t : Obj) (k : String) :
    getProp ((k₀, v₀) :: t) k = if k₀ = k then some v₀ else getProp t k := by
  by_cases h : k₀ = k
  · subst h
    simp [getProp, List.find?_cons_of_pos]
  · rw [if_neg h]
    unfold getProp
    rw [List.find?_cons_of_neg _ (by simpa using h)]

/-- A property write changes exactly the written key. -/
theorem getProp_setProp (t : Obj) (k : String) (v : Val) (k' : String) :
    getProp (setProp t k v) k' = if k = k' then some v else getProp t k' := by
  induction t with
  | nil => simp [setProp, getProp_cons, getProp]
  | cons hd tl ih =>
      obtain ⟨k₀, v₀⟩ := hd
      by_cases h0 : k₀ = k
      · subst h0
        simp only [setProp, beq_self_eq_true, if_true, getProp_cons]
        by_cases h : k₀ = k' <;> simp [h, getProp_cons]
      · rw [setProp, if_neg (by simpa using h0)]
        rw [getProp_cons, getProp_cons, ih]
        by_cases h1 : k = k'
        · subst h1
          simp [h0]
        · simp [h1]

/-- Keys absent from an object look up to `undefined`. -/
theorem getProp_eq_none_of_not_mem (o : Obj) (k : String)
    (h : k ∉ o.map Prod.fst) : getProp o k = none := by
  induction o with
  | nil => rfl
  | cons hd tl ih =>
      obtain ⟨k₀, v₀⟩ := hd
      simp only [List.map_cons, List.mem_cons, not_or] at h
      rw [getProp_cons, if_neg (fun hh => h.1 hh.symm)]
      exact ih h.2

/-- `Object.assign` semantics on a duplicate-key-free source: the merged
object looks up the source value when the key is in the source, and the
target's own value otherwise. -/
theorem getProp_objectAssign (t s : Obj) (hs : (s.map Prod.fst).Nodup) (k : String) :
    getProp (objectAssign t s) k = (getProp s k).or (getProp t k) := by
  induction s generalizing t with
  | nil => simp [objectAssign, getProp]
  | cons hd tl ih =>
      obtain ⟨k₀, v₀⟩ := hd
      simp only [List.map_cons, List.nodup_cons] at hs
      have hstep : objectAssign t ((k₀, v₀) :: tl) = objectAssign (setProp t k₀ v₀) tl := rfl
      rw [hstep, ih (setProp t k₀ v₀) hs.2, getProp_cons, getProp_setProp]
      by_cases h : k₀ = k
      · subst h
        rw [getProp_eq_none_of_not_mem tl k₀ hs.1]
        simp
      · simp [h]

/-- The `modify` case mutates only the first object whose id matches. -/
theorem modifyFirst_split (l1 l2 : List Obj) (o : Obj) (tid : Option Val) (p : Obj)
    (h1 : ∀ ob ∈ l1, objId ob ≠ tid) (ho : objId o = tid) :
    modifyFirst (l1 ++ o :: l2) tid p = l1 ++ objectAssign o p :: l2 := by
  induction l1 with
  | nil => simp [modifyFirst, ho]
  | cons hd tl ih =>
      have hhd : objId hd ≠ tid := h1 hd (List.mem_cons_self _ _)
      simp only [List.cons_append, modifyFirst, beq_iff_eq, hhd, if_false]
      simp only [List.append_eq]
      rw [ih (fun ob hob => h1 ob (List.mem_cons_of_mem _ hob))]

/-- Claim C6: when the world's objects split as `l1 ++ o :: l2` with `o` the
first object whose id matches, a Modify change replaces `o` by
`Object.assign o p` and touches nothing else; on that merged object the
supplied keys overwrite or extend the old ones and unmentioned keys are
untouched, and in particular assigning `{a: 1}` and then `{b: 2}` leaves
both properties present. -/
theorem claim6_modify_merge (w : World) (tid : Option Val) (p : Obj)
    (l1 l2 : List Obj) (o : Obj)
    (ht : truthyOpt tid = true)
    (hw : w.objects = l1 ++ o :: l2)
    (h1 : ∀ ob ∈ l1, objId ob ≠ tid)
    (ho : objId o = tid)
    (hp : (p.map Prod.fst).Nodup) :
    (applyChange w (.modify tid (some p))).objects = l1 ++ objectAssign o p :: l2 ∧
      (∀ k, getProp (objectAssign o p) k = (getProp p k).or (getProp o k)) ∧
      getProp (objectAssign (objectAssign o [("a", .num 1)]) [("b", .num 2)]) "a" =
          some (.num 1) ∧
      getProp (objectAssign (objectAssign o [("a", .num 1)]) [("b", .num 2)]) "b" =
          some (.num 2) := by
  refine ⟨?_, fun k => getProp_objectAssign o p hp k, ?_, ?_⟩
  · simp only [applyChange, ht, if_true, hw]
    exact modifyFirst_split l1 l2 o tid p h1 ho
  · rw [getProp_objectAssign _ _ (by simp) "a",
      getProp_objectAssign _ _ (by simp) "a"]
    simp [getProp_cons, getProp]
  · rw [getProp_objectAssign _ _ (by simp) "b"]
    simp [getProp_cons]

/-- Witness for claim C6 on a world holding the single object
`{id: "e", hp: 5}` modified with `{a: 1}`. -/
theorem claim6_witness :
    (applyChange (alterReality (createWorld ⟨10, 10, 10⟩ "c" "p" [])
          [.add (some [("id", .str "e"), ("hp", .num 5)])])
        (.modify (some (.str "e")) (some [("a", .num 1)]))).objects =
        [] ++ objectAssign [("id", .str "e"), ("hp", .num 5)] [("a", .num 1)] :: [] ∧
      (∀ k, getProp (objectAssign [("id", .str "e"), ("hp", .num 5)] [("a", .num 1)]) k =
        (getProp [("a", .num 1)] k).or (getProp [("id", .str "e"), ("hp", .num 5)] k)) ∧
      getProp (objectAssign (objectAssign [("id", .str "e"), ("hp", .num 5)]
          [("a", .num 1)]) [("b", .num 2)]) "a" = some (.num 1) ∧
      getProp (objectAssign (objectAssign [("id", .str "e"), ("hp", .num 5)]
          [("a", .num 1)]) [("b", .num 2)]) "b" = some (.num 2) :=
  claim6_modify_merge
    (alterReality (createWorld ⟨10, 10, 10⟩ "c" "p" [])
      [.add (some [("id", .str "e"), ("hp", .num 5)])])
    (some (.str "e")) [("a", .num 1)] [] []
    [("id", .str "e"), ("hp", .num 5)]
    (by decide) (by decide) (by decide) (by decide) (by decide)

/-! ### Multi-state operations (claim C2) -/

/-- The state-slot invariant is preserved by a single in-bounds operation. -/
theorem slotOk_applyQOp (o : QObj) (op : QOp)
    (ho : slotOk o = true) (hop : opOk op = true) :
    slotOk (applyQOp o op) = true := by
  cases op with
  | super s i =>
      simp only [opOk, decide_eq_true_eq] at hop
      simp only [applyQOp, applySuperposition]
      by_cases hl : s.length < 2
      · simpa [hl] using ho
      · simp only [hl, if_false, slotOk, decide_eq_true_eq]
        exact hop
  | change i =>
      simp only [applyQOp, changeCurrentState]
      cases hs : o.states with
      | none => simpa [hs] using ho
      | some l =>
          by_cases hi : 0 ≤ i ∧ i < (l.length : Int)
          · simp [hs, hi, slotOk]
          · simpa [hi, hs] using ho

/-- Claim C2, as stated, is false: `applySuperposition` stores an
out-of-range initial index unvalidated, so the object `C` given two states
and initial index 5 violates the bounds invariant. -/
theorem claim2_counterexample :
    slotOk (applySuperposition ⟨"C", false, none, none, none, none⟩
      [.str "red", .str "green"] 5) = false := by
  decide

/-- Claim C2 (amended): the in-bounds invariant holds after every sequence
of superposition assignments and current-state changes in which each
superposition assignment's initial index is within the bounds of its own
states list; `changeCurrentState` alone can never break it. -/
theorem claim2_index_inbounds_for_valid_ops (o : QObj) (ops : List QOp)
    (ho : slotOk o = true) (hops : ∀ op ∈ ops, opOk op = true) :
    slotOk (applyQOps o ops) = true := by
  induction ops generalizing o with
  | nil => simpa [applyQOps] using ho
  | cons op rest ih =>
      have h1 : slotOk (applyQOp o op) = true :=
        slotOk_applyQOp o op ho (hops op (List.mem_cons_self _ _))
      have h2 : ∀ x ∈ rest, opOk x = true :=
        fun x hx => hops x (List.mem_cons_of_mem _ hx)
      simpa [applyQOps] using ih (applyQOp o op) h1 h2

/-- Witness for the amended claim C2: the example object run through an
in-bounds superposition and an in-bounds state change keeps the invariant. -/
theorem claim2_witness :
    slotOk (applyQOps ⟨"C", false, none, none, none, none⟩
      [.super [.str "red", .str "green", .str "blue"] 1, .change 2]) = true :=
  claim2_index_inbounds_for_valid_ops ⟨"C", false, none, none, none, none⟩
    [.super [.str "red", .str "green", .str "blue"] 1, .change 2]
    (by decide) (by decide)

/-! ### Relation operations (claim C9) -/

/-- Claim C9: with at least two participants, `createEntanglement` marks
every resulting object entangled and stores on each the joined id string of
all participants, whose id list contains every participant's own id; the
operation is idempotent, and with fewer than two participants it is the
identity. -/
theorem claim9_entanglement (objs : List QObj) :
    (2 ≤ objs.length →
      (∀ r ∈ createEntanglement objs,
          r.isEntangled = true ∧
            r.entangledWith =
              some (String.intercalate ", " (objs.map QObj.id))) ∧
        ∀ o ∈ objs, o.id ∈ objs.map QObj.id) ∧
      createEntanglement (createEntanglement objs) = createEntanglement objs ∧
      (objs.length < 2 → createEntanglement objs = objs) := by
  refine ⟨fun h2 => ⟨?_, fun o ho => List.mem_map_of_mem _ ho⟩, ?_, fun hl => ?_⟩
  · have hl : ¬ objs.length < 2 := not_lt.mpr h2
    intro r hr
    simp only [createEntanglement, hl, if_false, List.mem_map] at hr
    obtain ⟨o, _, rfl⟩ := hr
    exact ⟨rfl, rfl⟩
  · by_cases hl : objs.length < 2
    · simp [createEntanglement, hl]
    · have hlen : (createEntanglement objs).length = objs.length := by
        simp [createEntanglement, hl]
      have hids : (createEntanglement objs).map QObj.id = objs.map QObj.id := by
        simp only [createEntanglement, hl, if_false, List.map_map]
        rfl
      have hl2 : ¬ (createEntanglement objs).length < 2 := by
        rw [hlen]; exact hl
      conv_lhs => rw [createEntanglement]
      rw [if_neg hl2, hids]
      simp only [createEntanglement, hl, if_false, List.map_map]
      rfl
  · simp [createEntanglement, hl]

/-- Witness for claim C9: two objects `A`, `B` are both marked entangled
with the id string `"A, B"` containing both ids; repeating the call changes
nothing. -/
theorem claim9_witness :
    ((∀ r ∈ createEntanglement
          [⟨"A", false, none, none, none, none⟩, ⟨"B", false, none, none, none, none⟩],
        r.isEntangled = true ∧
          r.entangledWith =
            some (String.intercalate ", "
              (([⟨"A", false, none, none, none, none⟩,
                 ⟨"B", false, none, none, none, none⟩] : List QObj).map QObj.id))) ∧
      ∀ o ∈ ([⟨"A", false, none, none, none, none⟩,
              ⟨"B", false, none, none, none, none⟩] : List QObj),
        o.id ∈ ([⟨"A", false, none, none, none, none⟩,
                 ⟨"B", false, none, none, none, none⟩] : List QObj).map QObj.id) ∧
      createEntanglement (createEntanglement
          [⟨"A", false, none, none, none, none⟩, ⟨"B", false, none, none, none, none⟩]) =
        createEntanglement
          [⟨"A", false, none, none, none, none⟩, ⟨"B", false, none, none, none, none⟩] :=
  ⟨(claim9_entanglement
      [⟨"A", false, none, none, none, none⟩, ⟨"B", false, none, none, none, none⟩]).1
      (by decide),
    (claim9_entanglement
      [⟨"A", false, none, none, none, none⟩, ⟨"B", false, none, none, none, none⟩]).2.1⟩

end CtrlXT
